import Mathlib

/-!
Verification of the Concur expense service (concur-service.ts).

This file gives a shallow embedding of the per-diem calculation engine
(rate table lookup and day-by-day breakdown) and of the OAuth token
lifecycle layer (token refresh, 401-retry request client, API error
construction), and proves properties of the embedded definitions.

Modelling conventions:
- JavaScript strings are Lean `String`s; `toLowerCase`, `trim` and
  `includes` are modelled on the character list (`jsLower`, `jsTrim`,
  `strIncludes`), matching JS on the ASCII data used by the program.
- JS `Date` values parsed from YYYY-MM-DD strings are UTC-midnight
  timestamps, i.e. integer multiples of 86 400 000 ms; dates are embedded
  as their millisecond timestamps (`Int`). The ISO formatting of a day's
  date is not re-modelled: a day's `date` field holds the timestamp.
- Money amounts are embedded as `Int` cents (value scaled by 100).
  Every amount in the table is a multiple of 0.25 and all sums stay far
  below 2^53, so IEEE-double arithmetic in the source is exact and the
  cents scaling is a faithful isomorphism.
- The mutable service object is a `SvcState` record threaded explicitly;
  `fetch` is modelled by consuming a script (list) of responses, and every
  issued request is recorded in a trace so call counts can be stated.
- Thrown exceptions become `Except.error`; JS truthiness of a
  string-or-null field is `isTruthy`.
-/

deriving instance DecidableEq for Except

/-! ## String helpers (JS semantics on ASCII) -/

/-- Whitespace characters removed by JS `String.prototype.trim` (ASCII part). -/
def jsWhitespace (c : Char) : Bool :=
  c == ' ' || c == '\t' || c == '\n' || c == '\r' || c == '\x0b' || c == '\x0c'

/-- JS `toLowerCase` (ASCII case mapping). -/
def jsLower (s : String) : String := ⟨s.data.map Char.toLower⟩

/-- JS `trim`: drop leading and trailing whitespace. -/
def jsTrim (s : String) : String :=
  ⟨((s.data.dropWhile jsWhitespace).reverse.dropWhile jsWhitespace).reverse⟩

/-- Does `hay` start with `needle`? (helper for substring search). -/
def startsWithChars : List Char → List Char → Bool
  | [], _ => true
  | _ :: _, [] => false
  | a :: as, b :: bs => a == b && startsWithChars as bs

/-- Does some suffix of `hay` start with `needle`? -/
def containsChars (needle : List Char) : List Char → Bool
  | [] => needle.isEmpty
  | c :: rest => startsWithChars needle (c :: rest) || containsChars needle rest

/-- JS `hay.includes(needle)`. -/
def strIncludes (hay needle : String) : Bool := containsChars needle.data hay.data

/-- JS truthiness of a nullable string (`null`/`undefined` and `""` are falsy). -/
def isTruthy : Option String → Bool
  | some s => !(s == "")
  | none => false

/-- Keep an optional string only when it is truthy in the JS sense. -/
def truthyStr : Option String → Option String
  | some s => if s == "" then none else some s
  | none => none

/-! ## Per-diem rate table (PER_DIEM_RATES) -/

structure PerDiemRate where
  location : String
  aliases : List String
  country : String
  fullDay : Int
  partialDay : Int
  isDefault : Bool
deriving DecidableEq, Repr

/-- The static rate table from concur-service.ts (amounts in cents:
92.00 is 9200). -/
def PER_DIEM_RATES : List PerDiemRate := [
  -- US Locations
  { location := "New York City", aliases := ["NYC", "New York", "Manhattan"], country := "US", fullDay := 9200, partialDay := 6900, isDefault := false },
  { location := "San Francisco", aliases := ["SF", "Bay Area"], country := "US", fullDay := 9200, partialDay := 6900, isDefault := false },
  { location := "Boston", aliases := [], country := "US", fullDay := 1800, partialDay := 1800, isDefault := false },
  { location := "All Other US", aliases := ["US", "USA", "United States"], country := "US", fullDay := 7400, partialDay := 5600, isDefault := true },
  -- International Locations
  { location := "Switzerland", aliases := ["Zurich", "Geneva", "Basel"], country := "CH", fullDay := 15000, partialDay := 11250, isDefault := false },
  { location := "London", aliases := ["UK", "United Kingdom", "England"], country := "GB", fullDay := 15000, partialDay := 11250, isDefault := false },
  { location := "Copenhagen", aliases := ["Denmark"], country := "DK", fullDay := 15000, partialDay := 11250, isDefault := false },
  { location := "Rest of World", aliases := ["International", "Other"], country := "INTL", fullDay := 10000, partialDay := 7500, isDefault := true }]

/-- Placeholder for the value of the non-null assertion in
`PER_DIEM_RATES.find(r => r.isDefault && r.country === 'INTL')!`; never
reached on the concrete table, which contains an INTL default. -/
def assertedRate : PerDiemRate :=
  { location := "", aliases := [], country := "", fullDay := 0, partialDay := 0, isDefault := false }

/-- First loop of findPerDiemRate: exact (case-insensitive) match of the
normalized query against a rate's location or one of its aliases, in table
order. The inner `for` loop over aliases with early return is `List.any`. -/
def findExactRate (normalizedLocation : String) : List PerDiemRate → Option PerDiemRate
  | [] => none
  | rate :: rest =>
    if jsLower rate.location == normalizedLocation then some rate
    else if rate.aliases.any (fun a => jsLower a == normalizedLocation) then some rate
    else findExactRate normalizedLocation rest

/-- Second loop of findPerDiemRate: substring match in either direction
against a rate's location or one of its aliases, in table order. -/
def findSubstrRate (normalizedLocation : String) : List PerDiemRate → Option PerDiemRate
  | [] => none
  | rate :: rest =>
    if strIncludes (jsLower rate.location) normalizedLocation ||
       strIncludes normalizedLocation (jsLower rate.location) then some rate
    else if rate.aliases.any (fun a =>
        strIncludes (jsLower a) normalizedLocation ||
        strIncludes normalizedLocation (jsLower a)) then some rate
    else findSubstrRate normalizedLocation rest

/-- The regular expression test `/^[a-z]{2}$/.test(s)`. -/
def isTwoLetterToken (s : String) : Bool :=
  s.data.length == 2 && s.data.all (fun c => 'a' ≤ c && c ≤ 'z')

/-- ConcurService.findPerDiemRate, translated from the source. -/
def findPerDiemRate (location : String) : PerDiemRate :=
  let normalizedLocation := jsTrim (jsLower location)
  match findExactRate normalizedLocation PER_DIEM_RATES with
  | some rate => rate
  | none =>
    match findSubstrRate normalizedLocation PER_DIEM_RATES with
    | some rate => rate
    | none =>
      let isUS := strIncludes normalizedLocation "us" ||
                  strIncludes normalizedLocation "united states" ||
                  strIncludes normalizedLocation "america" ||
                  isTwoLetterToken normalizedLocation
      let defaultRate := PER_DIEM_RATES.find? (fun r =>
        r.isDefault && (if isUS then r.country == "US" else r.country == "INTL"))
      match defaultRate with
      | some rate => rate
      | none => (PER_DIEM_RATES.find? (fun r => r.isDefault && r.country == "INTL")).getD assertedRate

/-! ## Reference definition of the lookup, written from the spec's words
(used only to compare against `findPerDiemRate`). -/

/-- Spec wording: case-insensitive exact match of the query against the
rate's canonical name or any alias. -/
def specExactMatch (normQuery : String) (r : PerDiemRate) : Bool :=
  jsLower r.location == normQuery || r.aliases.any (fun a => jsLower a == normQuery)

/-- Spec wording: case-insensitive substring match in either direction
(rate name/alias contains query, or query contains rate name/alias). -/
def specSubstrMatch (normQuery : String) (r : PerDiemRate) : Bool :=
  strIncludes (jsLower r.location) normQuery || strIncludes normQuery (jsLower r.location) ||
  r.aliases.any (fun a => strIncludes (jsLower a) normQuery || strIncludes normQuery (jsLower a))

/-- Spec wording: the query suggests a US location when it contains "us",
"united states" or "america", or is exactly a 2-letter token. -/
def specLooksUS (normQuery : String) : Bool :=
  strIncludes normQuery "us" || strIncludes normQuery "united states" ||
  strIncludes normQuery "america" || isTwoLetterToken normQuery

/-- The table's default US-region rate. -/
def specUSDefault : PerDiemRate :=
  (PER_DIEM_RATES.find? (fun r => r.isDefault && r.country == "US")).getD assertedRate

/-- The table's default international-region rate. -/
def specIntlDefault : PerDiemRate :=
  (PER_DIEM_RATES.find? (fun r => r.isDefault && r.country == "INTL")).getD assertedRate

/-- Reference resolution procedure, written from the spec's words: exact
match (table order) wins over substring match (table order); otherwise a
region default chosen by the US heuristic. -/
def findRateSpec (query : String) : PerDiemRate :=
  let norm := jsTrim (jsLower query)
  match PER_DIEM_RATES.find? (specExactMatch norm) with
  | some rate => rate
  | none =>
    match PER_DIEM_RATES.find? (specSubstrMatch norm) with
    | some rate => rate
    | none => if specLooksUS norm then specUSDefault else specIntlDefault

/-! ## Per-diem calculation (calculatePerDiem) -/

inductive DayType where
  | first
  | last
  | full
deriving DecidableEq, Repr

structure PerDiemDayDetail where
  date : Int
  dayType : DayType
  rate : Int
  location : String
deriving DecidableEq, Repr

structure PerDiemCalculation where
  location : String
  startDate : Int
  endDate : Int
  totalDays : Int
  fullDays : Int
  partialDays : Int
  fullDayRate : Int
  partialDayRate : Int
  totalAmount : Int
  breakdown : List PerDiemDayDetail
deriving DecidableEq, Repr

/-- `const dayMs = 24 * 60 * 60 * 1000`. -/
def dayMs : Int := 24 * 60 * 60 * 1000

/-- JS `Math.round` on an exact rational: round half towards positive
infinity. On the whole-day timestamp differences produced by YYYY-MM-DD
dates the argument is an exact integer, where float division is exact. -/
def jsRound (q : ℚ) : Int := ⌊q + 1 / 2⌋

/-- The if-chain of the loop body choosing `dayType` and `dayRate` from
the day's index and the total day count. -/
def dayTypeAndRate (rate : PerDiemRate) (totalDays : Int) (dayIndex : Nat) : DayType × Int :=
  if totalDays = 1 then (DayType.first, rate.partialDay)
  else if dayIndex = 0 then (DayType.first, rate.partialDay)
  else if (dayIndex : Int) = totalDays - 1 then (DayType.last, rate.partialDay)
  else (DayType.full, rate.fullDay)

/-- The `while (currentDate <= end)` loop of calculatePerDiem: emit one
PerDiemDayDetail per day, advancing by `dayMs` and classifying the day by
its index against `totalDays`. -/
def perDiemLoop (rate : PerDiemRate) (endMs totalDays : Int) (currentMs : Int) (dayIndex : Nat) :
    List PerDiemDayDetail :=
  if h : currentMs ≤ endMs then
    let td := dayTypeAndRate rate totalDays dayIndex
    { date := currentMs, dayType := td.1, rate := td.2, location := rate.location } ::
      perDiemLoop rate endMs totalDays (currentMs + dayMs) (dayIndex + 1)
  else []
termination_by (endMs + dayMs - currentMs).toNat
decreasing_by simp only [dayMs]; omega

/-- ConcurService.calculatePerDiem, translated from the source over parsed
timestamps. String-to-Date parsing happens before this point: an
unparseable date throws earlier ("Invalid date format. Use YYYY-MM-DD."),
so the embedding takes the two parsed millisecond timestamps. -/
def calculatePerDiem (startMs endMs : Int) (location : String) :
    Except String PerDiemCalculation :=
  let rate := findPerDiemRate location
  if endMs < startMs then .error "End date must be after start date."
  else
    let totalDays := jsRound (((endMs - startMs : Int) : ℚ) / ((dayMs : Int) : ℚ)) + 1
    let breakdown := perDiemLoop rate endMs totalDays startMs 0
    let fullDays := (breakdown.filter (fun d => d.dayType == DayType.full)).length
    let partialDays := (breakdown.filter (fun d => !(d.dayType == DayType.full))).length
    let totalAmount := breakdown.foldl (fun sum d => sum + d.rate) 0
    .ok { location := rate.location, startDate := startMs, endDate := endMs,
          totalDays := totalDays, fullDays := (fullDays : Int), partialDays := (partialDays : Int),
          fullDayRate := rate.fullDay, partialDayRate := rate.partialDay,
          totalAmount := totalAmount, breakdown := breakdown }

/-! ## HTTP / token model -/

/-- The JSON fields of a response body that the service reads. A field
that is absent (or not a string) is `none`. -/
structure JsonFields where
  Message : Option String
  error_description : Option String
  access_token : Option String
  refresh_token : Option String
deriving DecidableEq, Repr

/-- A parsed response body: a JSON object (with the fields the service
reads), a JSON string, or some other JSON value. -/
inductive BodyVal where
  | jobj (o : JsonFields)
  | jstr (s : String)
  | jother
deriving DecidableEq, Repr

/-- An HTTP response as the service observes it. `jsonBody`/`textBody`
are the results of `response.json()` / `response.text()`; `none` means
the corresponding read throws. -/
structure Resp where
  status : Nat
  statusText : String
  jsonBody : Option BodyVal
  textBody : Option String
deriving DecidableEq, Repr

/-- `Response.ok`: status in the inclusive range 200-299. -/
def Resp.ok (r : Resp) : Bool := 200 ≤ r.status && r.status ≤ 299

/-- `errorBody?.Message` on an optional parsed body. -/
def getMessage : Option BodyVal → Option String
  | some (.jobj o) => o.Message
  | _ => none

/-- `errorBody?.error_description` on an optional parsed body. -/
def getErrorDescription : Option BodyVal → Option String
  | some (.jobj o) => o.error_description
  | _ => none

/-- `data.access_token` of a parsed token-endpoint body. -/
def getAccessToken : BodyVal → Option String
  | .jobj o => o.access_token
  | _ => none

/-- `data.refresh_token` of a parsed token-endpoint body. -/
def getRefreshTokenField : BodyVal → Option String
  | .jobj o => o.refresh_token
  | _ => none

/-- One outbound network request as issued by the model (API call or
token-endpoint call). `formBody` models a URLSearchParams body. -/
structure NetCall where
  url : String
  method : String
  headers : List (String × String)
  body : Option String
  formBody : Option (List (String × String))
deriving DecidableEq, Repr

/-- The caller-supplied RequestInit. -/
structure RequestOptions where
  method : String
  headers : List (String × String)
  body : Option String
deriving DecidableEq, Repr

/-- The mutable fields of the ConcurService instance. -/
structure SvcState where
  accessToken : Option String
  refreshToken : Option String
  clientId : Option String
  clientSecret : Option String
  tokenRefreshInProgress : Bool
deriving DecidableEq, Repr

def tokenUrl : String := "https://us.api.concursolutions.com/oauth2/v0/token"

/-- A thrown value: a plain `Error(message)`, a ConcurApiError, or a
model artifact (script exhausted / body read threw). -/
structure ApiError where
  message : String
  status : Nat
  statusText : String
  body : Option BodyVal
deriving DecidableEq, Repr

inductive SvcError where
  | plain (message : String)
  | api (e : ApiError)
  | jsonReadFailed
  | textReadFailed
  | scriptEnd
deriving DecidableEq, Repr

/-- Result of running a service operation: outcome, final state, trace of
issued network calls, remaining scripted responses. -/
structure RunResult (α : Type) where
  result : Except SvcError α
  state : SvcState
  trace : List NetCall
  script : List Resp

/-- Sequencing: run `o`, then feed its value, state and remaining script
to `f`; traces accumulate, a thrown error propagates. -/
def RunResult.andThen {α β : Type} (o : RunResult α)
    (f : α → SvcState → List Resp → RunResult β) : RunResult β :=
  match o.result with
  | .error e => ⟨.error e, o.state, o.trace, o.script⟩
  | .ok a =>
    let o2 := f a o.state o.script
    ⟨o2.result, o2.state, o.trace ++ o2.trace, o2.script⟩

/-- `fetch`: record the request and consume the next scripted response. -/
def netFetch (call : NetCall) (st : SvcState) (script : List Resp) : RunResult Resp :=
  match script with
  | [] => ⟨.error .scriptEnd, st, [call], []⟩
  | r :: rest => ⟨.ok r, st, [call], rest⟩

/-- ConcurService.refreshAccessToken. On a successful exchange the stored
access token becomes the response's `access_token` and the stored refresh
token is replaced when the response carries a truthy `refresh_token`. -/
def refreshAccessToken (st : SvcState) (script : List Resp) : RunResult Unit :=
  if !(isTruthy st.refreshToken && isTruthy st.clientId && isTruthy st.clientSecret) then
    ⟨.error (.plain "Cannot refresh token: Missing refresh token or client credentials."), st, [], script⟩
  else
    let call : NetCall :=
      { url := tokenUrl, method := "POST",
        headers := [("Content-Type", "application/x-www-form-urlencoded")],
        body := none,
        formBody := some [
          ("client_id", st.clientId.getD ""),
          ("client_secret", st.clientSecret.getD ""),
          ("grant_type", "refresh_token"),
          ("refresh_token", st.refreshToken.getD "")] }
    (netFetch call st script).andThen fun response st1 sc1 =>
      if !response.ok then
        match response.textBody with
        | none => ⟨.error .textReadFailed, st1, [], sc1⟩
        | some errorText =>
          ⟨.error (.plain ("Failed to refresh token: " ++ response.statusText ++ " - " ++ errorText)),
           st1, [], sc1⟩
      else
        match response.jsonBody with
        | none => ⟨.error .jsonReadFailed, st1, [], sc1⟩
        | some data =>
          let st2 := { st1 with
            accessToken := getAccessToken data,
            refreshToken := if isTruthy (getRefreshTokenField data)
                            then getRefreshTokenField data else st1.refreshToken }
          ⟨.ok (), st2, [], sc1⟩

/-- ConcurService.ensureToken. -/
def ensureToken (st : SvcState) (script : List Resp) : RunResult Unit :=
  if isTruthy st.accessToken then ⟨.ok (), st, [], script⟩
  else if isTruthy st.refreshToken && isTruthy st.clientId && isTruthy st.clientSecret then
    refreshAccessToken st script
  else if !(isTruthy st.clientId && isTruthy st.clientSecret) then
    ⟨.error (.plain "No access token, refresh token, or client credentials provided"), st, [], script⟩
  else
    let call : NetCall :=
      { url := tokenUrl, method := "POST",
        headers := [("Content-Type", "application/x-www-form-urlencoded")],
        body := none,
        formBody := some [
          ("client_id", st.clientId.getD ""),
          ("client_secret", st.clientSecret.getD ""),
          ("grant_type", "client_credentials")] }
    (netFetch call st script).andThen fun response st1 sc1 =>
      if !response.ok then
        match response.textBody with
        | none => ⟨.error .textReadFailed, st1, [], sc1⟩
        | some errorText =>
          ⟨.error (.plain ("Failed to authenticate: " ++ response.statusText ++ " - " ++ errorText)),
           st1, [], sc1⟩
      else
        match response.jsonBody with
        | none => ⟨.error .jsonReadFailed, st1, [], sc1⟩
        | some data =>
          ⟨.ok (), { st1 with accessToken := getAccessToken data }, [], sc1⟩

/-- The template literal `Bearer ${this.accessToken}` (a null token
stringifies into the header). -/
def bearerValue (token : Option String) : String :=
  "Bearer " ++ (match token with | some s => s | none => "null")

/-- ConcurService.getHeaders. -/
def getHeaders (st : SvcState) (script : List Resp) : RunResult (List (String × String)) :=
  (ensureToken st script).andThen fun _ st1 sc1 =>
    ⟨.ok [("Authorization", bearerValue st1.accessToken), ("Accept", "application/json")],
     st1, [], sc1⟩

/-- The object spread `{ ...headers, ...options.headers }`: keys of the
base object keep their position but a key also present in `overrides`
takes the override's value; keys only in `overrides` are appended. -/
def mergeHeaders (base overrides : List (String × String)) : List (String × String) :=
  base.map (fun kv =>
    match List.lookup kv.1 overrides with
    | some v => (kv.1, v)
    | none => kv) ++
  overrides.filter (fun kv => !(base.any (fun kv2 => kv2.1 == kv.1)))

/-- `await response.json()` falling back to `await response.text()`
falling back to null, as in handleApiError. -/
def parseErrorBody (response : Resp) : Option BodyVal :=
  match response.jsonBody with
  | some v => some v
  | none =>
    match response.textBody with
    | some t => some (.jstr t)
    | none => none

/-- The suffix appended to the base message by the `error.message +=`
chain of handleApiError. -/
def apiErrorSuffix (errorBody : Option BodyVal) : String :=
  match truthyStr (getMessage errorBody) with
  | some m => " - " ++ m
  | none =>
    match truthyStr (getErrorDescription errorBody) with
    | some d => " - " ++ d
    | none =>
      match errorBody with
      | some (.jstr s) => if s.length < 200 then " - " ++ s else ""
      | _ => ""

/-- ConcurService.handleApiError, as the ConcurApiError value it throws. -/
def handleApiError (response : Resp) (context : String) : ApiError :=
  let errorBody := parseErrorBody response
  let baseMessage := "Concur API error (" ++ context ++ "): " ++
    toString response.status ++ " " ++ response.statusText
  { message := baseMessage ++ apiErrorSuffix errorBody,
    status := response.status,
    statusText := response.statusText,
    body := errorBody }

/-- ConcurService.fetchWithRetry. The recursive retry is issued with
`retryOn401 = false`, so at most one retry ever happens. -/
def fetchWithRetry (url : String) (options : RequestOptions) (context : String)
    (retryOn401 : Bool) (st : SvcState) (script : List Resp) : RunResult Resp :=
  (getHeaders st script).andThen fun headers st1 sc1 =>
    (netFetch { url := url, method := options.method,
                headers := mergeHeaders headers options.headers,
                body := options.body, formBody := none } st1 sc1).andThen
      fun response st2 sc2 =>
        if h401 : response.status == 401 && retryOn401 && !st2.tokenRefreshInProgress then
          if isTruthy st2.refreshToken && isTruthy st2.clientId && isTruthy st2.clientSecret then
            let st3 := { st2 with tokenRefreshInProgress := true }
            let refreshRun := refreshAccessToken st3 sc2
            match refreshRun.result with
            | .ok _ =>
              let st4 := { refreshRun.state with tokenRefreshInProgress := false }
              let retryRun := fetchWithRetry url options context false st4 refreshRun.script
              ⟨retryRun.result, retryRun.state, refreshRun.trace ++ retryRun.trace, retryRun.script⟩
            | .error refreshError =>
              ⟨.error refreshError, { refreshRun.state with tokenRefreshInProgress := false },
               refreshRun.trace, refreshRun.script⟩
          else if !response.ok then
            ⟨.error (.api (handleApiError response context)), st2, [], sc2⟩
          else ⟨.ok response, st2, [], sc2⟩
        else if !response.ok then
          ⟨.error (.api (handleApiError response context)), st2, [], sc2⟩
        else ⟨.ok response, st2, [], sc2⟩
termination_by (cond retryOn401 1 0 : Nat)
decreasing_by
  simp only [Bool.and_eq_true] at h401
  simp [h401.1.2]

/-! ## General lemmas -/

theorem startsWithChars_self (n b : List Char) : startsWithChars n (n ++ b) = true := by
  induction n with
  | nil => rfl
  | cons c cs ih => simp [startsWithChars, ih]

theorem containsChars_here (n b : List Char) : containsChars n (n ++ b) = true := by
  cases n with
  | nil => cases b <;> simp [containsChars, startsWithChars, List.isEmpty]
  | cons c cs => simp [containsChars, startsWithChars, startsWithChars_self]

theorem containsChars_extend (n a s : List Char) (h : containsChars n s = true) :
    containsChars n (a ++ s) = true := by
  induction a with
  | nil => simpa using h
  | cons c cs ih => simp [containsChars, ih]

theorem strIncludes_of_data (hay n : String) (a b : List Char)
    (h : hay.data = a ++ (n.data ++ b)) : strIncludes hay n = true := by
  unfold strIncludes
  rw [h]
  exact containsChars_extend _ _ _ (containsChars_here _ _)

theorem strData_append (x y : String) : (x ++ y).data = x.data ++ y.data := rfl

theorem length_filter_add_length_filter_not {α : Type} (l : List α) (p : α → Bool) :
    (l.filter p).length + (l.filter fun x => !(p x)).length = l.length := by
  induction l with
  | nil => rfl
  | cons x xs ih => cases hx : p x <;> simp [List.filter_cons, hx] <;> omega

theorem foldl_rate_eq_sum (l : List PerDiemDayDetail) :
    l.foldl (fun sum d => sum + d.rate) 0 = (l.map PerDiemDayDetail.rate).sum := by
  rw [List.sum_eq_foldl, List.foldl_map]

/-! ## Claim C10 -/

/-- Claim C10: a query that normalizes (lowercase, trim) to the empty
string resolves to the first entry of the rate table, the New York City
rate, because the substring containment check is vacuously true there. -/
theorem findPerDiemRate_empty_query (q : String) (h : jsTrim (jsLower q) = "") :
    PER_DIEM_RATES[0]? = some (findPerDiemRate q) ∧
    (findPerDiemRate q).location = "New York City" := by
  unfold findPerDiemRate
  rw [h]
  decide

/-- Concrete instance of C10: a whitespace-only location string. -/
theorem findPerDiemRate_empty_query_witness :
    jsTrim (jsLower "   ") = "" ∧
    (PER_DIEM_RATES[0]? = some (findPerDiemRate "   ") ∧
     (findPerDiemRate "   ").location = "New York City") :=
  ⟨by decide, findPerDiemRate_empty_query "   " (by decide)⟩

/-! ## Claim C5 -/

theorem findExactRate_eq_find (norm : String) :
    ∀ l : List PerDiemRate, findExactRate norm l = l.find? (specExactMatch norm) := by
  intro l
  induction l with
  | nil => rfl
  | cons r rest ih =>
    simp only [findExactRate, List.find?_cons, specExactMatch]
    cases hA : (jsLower r.location == norm) <;>
      cases hB : (r.aliases.any fun a => jsLower a == norm) <;>
      simp [hA, hB, ih, specExactMatch]

theorem findSubstrRate_eq_find (norm : String) :
    ∀ l : List PerDiemRate, findSubstrRate norm l = l.find? (specSubstrMatch norm) := by
  intro l
  induction l with
  | nil => rfl
  | cons r rest ih =>
    simp only [findSubstrRate, List.find?_cons, specSubstrMatch]
    cases hA : (strIncludes (jsLower r.location) norm) <;>
      cases hB : (strIncludes norm (jsLower r.location)) <;>
      cases hC : (r.aliases.any fun a =>
        strIncludes (jsLower a) norm || strIncludes norm (jsLower a)) <;>
      simp [hA, hB, hC, ih, specSubstrMatch]

/-- Claim C5: the source lookup coincides with the reference resolution
procedure written from the spec (exact match beats substring match,
substring match checks both directions in table order, and otherwise the
US/international region default is chosen by the text heuristic), and the
result only depends on the query up to ASCII case. -/
theorem findPerDiemRate_matches_reference :
    (∀ q, findPerDiemRate q = findRateSpec q) ∧
    (∀ q₁ q₂, jsLower q₁ = jsLower q₂ → findPerDiemRate q₁ = findPerDiemRate q₂) := by
  constructor
  · intro q
    unfold findPerDiemRate findRateSpec
    simp only [findExactRate_eq_find, findSubstrRate_eq_find]
    cases hE : PER_DIEM_RATES.find? (specExactMatch (jsTrim (jsLower q))) <;>
      simp only [hE]
    cases hS : PER_DIEM_RATES.find? (specSubstrMatch (jsTrim (jsLower q))) <;>
      simp only [hS]
    unfold specLooksUS
    cases hUS : (strIncludes (jsTrim (jsLower q)) "us" ||
        strIncludes (jsTrim (jsLower q)) "united states" ||
        strIncludes (jsTrim (jsLower q)) "america" ||
        isTwoLetterToken (jsTrim (jsLower q))) <;>
      simp only [hUS, Bool.false_eq_true, if_false, if_true] <;> decide
  · intro q₁ q₂ h
    unfold findPerDiemRate
    rw [h]

/-- Concrete instance of C5 at the spec's own example queries. -/
theorem findPerDiemRate_matches_reference_witness :
    findPerDiemRate "NYC" = findRateSpec "NYC" ∧
    jsLower "NYC" = jsLower "Nyc" ∧
    findPerDiemRate "NYC" = findPerDiemRate "Nyc" :=
  ⟨findPerDiemRate_matches_reference.1 "NYC", by decide,
   findPerDiemRate_matches_reference.2 "NYC" "Nyc" (by decide)⟩

/-! ## Closed form of the per-diem loop -/

/-- The breakdown and derived fields produced by calculatePerDiem on an
inclusive range of `k + 1` whole days. -/
def mkCalcResult (rate : PerDiemRate) (startMs : Int) (k : Nat) : PerDiemCalculation :=
  let breakdown := (List.range (k + 1)).map (fun j =>
    { date := startMs + (j : Int) * dayMs,
      dayType := (dayTypeAndRate rate ((k : Int) + 1) j).1,
      rate := (dayTypeAndRate rate ((k : Int) + 1) j).2,
      location := rate.location })
  { location := rate.location,
    startDate := startMs,
    endDate := startMs + (k : Int) * dayMs,
    totalDays := (k : Int) + 1,
    fullDays := ((breakdown.filter (fun d => d.dayType == DayType.full)).length : Int),
    partialDays := ((breakdown.filter (fun d => !(d.dayType == DayType.full))).length : Int),
    fullDayRate := rate.fullDay,
    partialDayRate := rate.partialDay,
    totalAmount := breakdown.foldl (fun sum d => sum + d.rate) 0,
    breakdown := breakdown }

theorem perDiemLoop_closed (rate : PerDiemRate) (totalDays : Int) :
    ∀ (k : Nat) (cur : Int) (idx : Nat),
      perDiemLoop rate (cur + (k : Int) * dayMs) totalDays cur idx =
        (List.range (k + 1)).map (fun j =>
          { date := cur + (j : Int) * dayMs,
            dayType := (dayTypeAndRate rate totalDays (idx + j)).1,
            rate := (dayTypeAndRate rate totalDays (idx + j)).2,
            location := rate.location }) := by
  intro k
  induction k with
  | zero =>
    intro cur idx
    rw [perDiemLoop]
    have hc : cur ≤ cur + ((0 : Nat) : Int) * dayMs := by simp
    rw [dif_pos hc]
    rw [perDiemLoop]
    have hn : ¬ (cur + dayMs ≤ cur + ((0 : Nat) : Int) * dayMs) := by
      simp only [dayMs]; omega
    rw [dif_neg hn]
    simp [List.range_succ]
  | succ k ih =>
    intro cur idx
    rw [perDiemLoop]
    have hc : cur ≤ cur + ((k + 1 : Nat) : Int) * dayMs := by
      simp only [dayMs]; omega
    rw [dif_pos hc]
    have he : cur + ((k + 1 : Nat) : Int) * dayMs = (cur + dayMs) + (k : Int) * dayMs := by
      push_cast; ring
    rw [he, ih (cur + dayMs) (idx + 1)]
    conv_rhs => rw [List.range_succ_eq_map]
    simp only [List.map_cons, List.map_map]
    congr 1
    · simp
    · congr 1
      funext j
      simp only [Function.comp_apply, Nat.succ_eq_add_one]
      have hdate : cur + dayMs + (j : Int) * dayMs = cur + ((j + 1 : Nat) : Int) * dayMs := by
        push_cast; ring
      have hidx : idx + 1 + j = idx + (j + 1) := by omega
      rw [hdate, hidx]

theorem jsRound_whole_days (k : Nat) :
    jsRound ((((k : Int) * dayMs : Int) : ℚ) / ((dayMs : Int) : ℚ)) = (k : Int) := by
  unfold jsRound
  have hd : ((dayMs : Int) : ℚ) ≠ 0 := by simp [dayMs]
  rw [show (((k : Int) * dayMs : Int) : ℚ) = ((k : Int) : ℚ) * ((dayMs : Int) : ℚ) by push_cast; ring]
  rw [mul_div_assoc, div_self hd, mul_one, add_comm]
  rw [show (((k : Int) : ℚ)) = (((k : Int) : ℤ) : ℚ) by push_cast; ring]
  rw [Int.floor_add_int]
  norm_num

/-- On an inclusive aligned range of `k + 1` days, calculatePerDiem
returns exactly the closed-form calculation. -/
theorem calculatePerDiem_ok (startMs : Int) (k : Nat) (loc : String) :
    calculatePerDiem startMs (startMs + (k : Int) * dayMs) loc =
      Except.ok (mkCalcResult (findPerDiemRate loc) startMs k) := by
  have hlt : ¬ (startMs + (k : Int) * dayMs < startMs) := by
    simp only [dayMs]; omega
  have harith : startMs + (k : Int) * dayMs - startMs = (k : Int) * dayMs := by ring
  simp only [calculatePerDiem, mkCalcResult]
  rw [if_neg hlt]
  rw [harith, jsRound_whole_days, perDiemLoop_closed]
  simp

theorem dayTypeAndRate_zero (rate : PerDiemRate) (td : Int) :
    dayTypeAndRate rate td 0 = (DayType.first, rate.partialDay) := by
  unfold dayTypeAndRate
  by_cases h : td = 1 <;> simp [h]

theorem dayTypeAndRate_lastDay (rate : PerDiemRate) (k : Nat) (hk : 1 ≤ k) :
    dayTypeAndRate rate ((k : Int) + 1) k = (DayType.last, rate.partialDay) := by
  unfold dayTypeAndRate
  have h1 : ¬ ((k : Int) + 1 = 1) := by omega
  have h2 : ¬ (k = 0) := by omega
  have h3 : ((k : Nat) : Int) = (k : Int) + 1 - 1 := by ring
  rw [if_neg h1, if_neg h2, if_pos h3]

theorem dayTypeAndRate_middle (rate : PerDiemRate) (k j : Nat) (h0 : 0 < j) (hjk : j < k) :
    dayTypeAndRate rate ((k : Int) + 1) j = (DayType.full, rate.fullDay) := by
  unfold dayTypeAndRate
  have h1 : ¬ ((k : Int) + 1 = 1) := by omega
  have h2 : ¬ (j = 0) := by omega
  have h3 : ¬ ((j : Nat) : Int) = ((k : Int) + 1 - 1) := by omega
  rw [if_neg h1, if_neg h2, if_neg h3]

theorem beq_first_full : (DayType.first == DayType.full) = false := by decide

theorem beq_last_full : (DayType.last == DayType.full) = false := by decide

theorem beq_full_full : (DayType.full == DayType.full) = true := by decide

theorem calc_days_split (l : List PerDiemDayDetail) :
    ((l.filter (fun d => d.dayType == DayType.full)).length : Int) +
      ((l.filter (fun d => !(d.dayType == DayType.full))).length : Int) = (l.length : Int) := by
  have h := length_filter_add_length_filter_not l (fun d => d.dayType == DayType.full)
  omega

/-! ## Claim C1 -/

/-- Claim C1: whenever calculatePerDiem succeeds on a whole-day range
(YYYY-MM-DD dates parse to UTC-midnight timestamps, so the difference of
the two timestamps is a multiple of dayMs and success means start ≤ end),
the returned calculation satisfies: totalAmount is the sum of the
breakdown rates, totalDays = fullDays + partialDays, and the breakdown
has totalDays entries. -/
theorem calculatePerDiem_invariants (startMs endMs : Int) (loc : String)
    (hle : startMs ≤ endMs) (hdvd : dayMs ∣ endMs - startMs)
    (c : PerDiemCalculation) (hc : calculatePerDiem startMs endMs loc = Except.ok c) :
    c.totalAmount = (c.breakdown.map PerDiemDayDetail.rate).sum ∧
    c.totalDays = c.fullDays + c.partialDays ∧
    (c.breakdown.length : Int) = c.totalDays := by
  obtain ⟨d, hd⟩ := hdvd
  have hend : endMs = startMs + (d.toNat : Int) * dayMs := by
    simp only [dayMs] at hd ⊢
    omega
  rw [hend, calculatePerDiem_ok] at hc
  have hceq : c = mkCalcResult (findPerDiemRate loc) startMs d.toNat := by
    injection hc with h
    exact h.symm
  subst hceq
  refine ⟨?_, ?_, ?_⟩
  · simp only [mkCalcResult]
    exact foldl_rate_eq_sum _
  · simp only [mkCalcResult]
    rw [calc_days_split]
    simp
  · simp [mkCalcResult]

/-- The day-count fixture for the C1 witness: three aligned days. -/
def c1Calc : PerDiemCalculation := mkCalcResult (findPerDiemRate "NYC") 0 2

/-- Concrete instance of C1 on a three-day NYC range. -/
theorem calculatePerDiem_invariants_witness :
    (0 : Int) ≤ 0 + ((2 : Nat) : Int) * dayMs ∧
    dayMs ∣ (0 + ((2 : Nat) : Int) * dayMs - 0) ∧
    calculatePerDiem 0 (0 + ((2 : Nat) : Int) * dayMs) "NYC" = Except.ok c1Calc ∧
    (c1Calc.totalAmount = (c1Calc.breakdown.map PerDiemDayDetail.rate).sum ∧
     c1Calc.totalDays = c1Calc.fullDays + c1Calc.partialDays ∧
     (c1Calc.breakdown.length : Int) = c1Calc.totalDays) :=
  ⟨by decide, by decide, calculatePerDiem_ok 0 2 "NYC",
   calculatePerDiem_invariants 0 (0 + ((2 : Nat) : Int) * dayMs) "NYC" (by decide) (by decide)
     c1Calc (calculatePerDiem_ok 0 2 "NYC")⟩

/-! ## Claim C2 -/

/-- Claim C2: day types are assigned by position. On an aligned one-day
range (start = end, i.e. k = 0) the single day is `first` at the partial
rate, giving totalDays = 1, fullDays = 0, partialDays = 1 and totalAmount
= partialDayRate of the resolved location; on a longer aligned range
(k ≥ 1 extra days) index 0 is `first` at the partial rate, index k is
`last` at the partial rate, and every index in between is `full` at the
full rate. -/
theorem calculatePerDiem_day_types (startMs : Int) (k : Nat) (loc : String)
    (c : PerDiemCalculation)
    (hc : calculatePerDiem startMs (startMs + (k : Int) * dayMs) loc = Except.ok c) :
    (k = 0 → c.totalDays = 1 ∧ c.fullDays = 0 ∧ c.partialDays = 1 ∧
      c.totalAmount = (findPerDiemRate loc).partialDay ∧
      c.breakdown = [{ date := startMs, dayType := DayType.first,
                       rate := (findPerDiemRate loc).partialDay,
                       location := (findPerDiemRate loc).location }]) ∧
    (1 ≤ k →
      c.breakdown[0]? = some { date := startMs, dayType := DayType.first,
                               rate := (findPerDiemRate loc).partialDay,
                               location := (findPerDiemRate loc).location } ∧
      c.breakdown[k]? = some { date := startMs + (k : Int) * dayMs, dayType := DayType.last,
                               rate := (findPerDiemRate loc).partialDay,
                               location := (findPerDiemRate loc).location } ∧
      ∀ j : Nat, 0 < j → j < k →
        c.breakdown[j]? = some { date := startMs + (j : Int) * dayMs, dayType := DayType.full,
                                 rate := (findPerDiemRate loc).fullDay,
                                 location := (findPerDiemRate loc).location }) := by
  rw [calculatePerDiem_ok] at hc
  have hceq : c = mkCalcResult (findPerDiemRate loc) startMs k := by
    injection hc with h
    exact h.symm
  subst hceq
  constructor
  · rintro rfl
    simp [mkCalcResult, List.range_succ, dayTypeAndRate_zero,
          beq_first_full, List.filter]
  · intro hk
    refine ⟨?_, ?_, ?_⟩
    · simp [mkCalcResult, List.getElem?_map, List.getElem?_range, dayTypeAndRate_zero]
    · have hlt : k < k + 1 := Nat.lt_succ_self k
      simp [mkCalcResult, List.getElem?_map, List.getElem?_range, hlt,
            dayTypeAndRate_lastDay (findPerDiemRate loc) k hk]
    · intro j hj0 hjk
      have hlt : j < k + 1 := by omega
      simp [mkCalcResult, List.getElem?_map, List.getElem?_range, hlt,
            dayTypeAndRate_middle (findPerDiemRate loc) k j hj0 hjk]

/-- The calculation fixture for the C2 witness: three aligned NYC days. -/
def c2Calc : PerDiemCalculation := mkCalcResult (findPerDiemRate "NYC") 0 2

/-- The calculation fixture for the C2 witness, one-day case (Boston). -/
def c2CalcOne : PerDiemCalculation := mkCalcResult (findPerDiemRate "Boston") 0 0

/-- Concrete instance of C2: a one-day Boston range and a three-day NYC
range. -/
theorem calculatePerDiem_day_types_witness :
    calculatePerDiem 0 (0 + ((0 : Nat) : Int) * dayMs) "Boston" = Except.ok c2CalcOne ∧
    c2CalcOne.totalAmount = (findPerDiemRate "Boston").partialDay ∧
    calculatePerDiem 0 (0 + ((2 : Nat) : Int) * dayMs) "NYC" = Except.ok c2Calc ∧
    c2Calc.breakdown[0]? = some { date := 0, dayType := DayType.first,
                                  rate := (findPerDiemRate "NYC").partialDay,
                                  location := (findPerDiemRate "NYC").location } ∧
    c2Calc.breakdown[2]? = some { date := 0 + ((2 : Nat) : Int) * dayMs, dayType := DayType.last,
                                  rate := (findPerDiemRate "NYC").partialDay,
                                  location := (findPerDiemRate "NYC").location } ∧
    c2Calc.breakdown[1]? = some { date := 0 + ((1 : Nat) : Int) * dayMs, dayType := DayType.full,
                                  rate := (findPerDiemRate "NYC").fullDay,
                                  location := (findPerDiemRate "NYC").location } :=
  ⟨calculatePerDiem_ok 0 0 "Boston",
   (((calculatePerDiem_day_types 0 0 "Boston" c2CalcOne
       (calculatePerDiem_ok 0 0 "Boston")).1 rfl).2.2.2.1),
   calculatePerDiem_ok 0 2 "NYC",
   (((calculatePerDiem_day_types 0 2 "NYC" c2Calc
       (calculatePerDiem_ok 0 2 "NYC")).2 (by norm_num)).1),
   (((calculatePerDiem_day_types 0 2 "NYC" c2Calc
       (calculatePerDiem_ok 0 2 "NYC")).2 (by norm_num)).2.1),
   (((calculatePerDiem_day_types 0 2 "NYC" c2Calc
       (calculatePerDiem_ok 0 2 "NYC")).2 (by norm_num)).2.2 1 (by norm_num) (by norm_num))⟩

/-! ## Claim C4 -/

/-- Claim C4 (amended): on a successful exchange refreshAccessToken
replaces the stored access token with the response's access_token, and
replaces the stored refresh token if and only if the response supplies a
non-empty (JS-truthy) refresh_token; when the exchange is rejected
(non-ok response) or refresh credentials are incomplete it fails and
leaves both stored tokens unchanged (and in the credential case makes no
network call). -/
theorem refreshAccessToken_updates_tokens :
    (∀ (st : SvcState) (tok : Resp) (rest : List Resp) (b : BodyVal),
      isTruthy st.refreshToken = true → isTruthy st.clientId = true →
      isTruthy st.clientSecret = true → tok.ok = true → tok.jsonBody = some b →
      (refreshAccessToken st (tok :: rest)).result = Except.ok () ∧
      (refreshAccessToken st (tok :: rest)).state.accessToken = getAccessToken b ∧
      (isTruthy (getRefreshTokenField b) = true →
        (refreshAccessToken st (tok :: rest)).state.refreshToken = getRefreshTokenField b) ∧
      (isTruthy (getRefreshTokenField b) = false →
        (refreshAccessToken st (tok :: rest)).state.refreshToken = st.refreshToken)) ∧
    (∀ (st : SvcState) (tok : Resp) (rest : List Resp),
      tok.ok = false →
      (¬ (refreshAccessToken st (tok :: rest)).result = Except.ok ()) ∧
      (refreshAccessToken st (tok :: rest)).state.accessToken = st.accessToken ∧
      (refreshAccessToken st (tok :: rest)).state.refreshToken = st.refreshToken) ∧
    (∀ (st : SvcState) (script : List Resp),
      (isTruthy st.refreshToken && isTruthy st.clientId && isTruthy st.clientSecret) = false →
      (¬ (refreshAccessToken st script).result = Except.ok ()) ∧
      (refreshAccessToken st script).state = st ∧
      (refreshAccessToken st script).trace = []) := by
  refine ⟨?_, ?_, ?_⟩
  · intro st tok rest b h1 h2 h3 hok hjson
    refine ⟨?_, ?_, ?_, ?_⟩
    · simp [refreshAccessToken, netFetch, RunResult.andThen, h1, h2, h3, hok, hjson]
    · simp [refreshAccessToken, netFetch, RunResult.andThen, h1, h2, h3, hok, hjson]
    · intro hrt
      simp [refreshAccessToken, netFetch, RunResult.andThen, h1, h2, h3, hok, hjson, hrt]
    · intro hrt
      simp [refreshAccessToken, netFetch, RunResult.andThen, h1, h2, h3, hok, hjson, hrt]
  · intro st tok rest hok
    by_cases hcred :
        (isTruthy st.refreshToken && isTruthy st.clientId && isTruthy st.clientSecret) = true
    · cases htxt : tok.textBody <;>
        refine ⟨?_, ?_, ?_⟩ <;>
        simp [refreshAccessToken, netFetch, RunResult.andThen, hcred, hok, htxt]
    · have hcred' :
          (isTruthy st.refreshToken && isTruthy st.clientId && isTruthy st.clientSecret) = false := by
        simpa using hcred
      refine ⟨?_, ?_, ?_⟩ <;> simp [refreshAccessToken, hcred']
  · intro st script hcred
    refine ⟨?_, ?_, ?_⟩ <;> simp [refreshAccessToken, hcred]

/-- Service state fixture: a client holding all refresh credentials. -/
def c4State : SvcState :=
  { accessToken := some "old-access", refreshToken := some "old-refresh",
    clientId := some "cid", clientSecret := some "csecret", tokenRefreshInProgress := false }

/-- A successful token response whose refresh_token is the empty string
(present in the JSON, falsy in JS). -/
def c4TokenRespEmpty : Resp :=
  { status := 200, statusText := "OK",
    jsonBody := some (.jobj { Message := none, error_description := none,
                              access_token := some "new-access", refresh_token := some "" }),
    textBody := none }

/-- Counterexample to C4 as stated: the exchange succeeds and the
response supplies a refresh_token (the empty string), but the stored
refresh token is NOT replaced, because `if (data.refresh_token)` treats
the empty string as absent. -/
theorem refreshAccessToken_rotation_cex :
    (refreshAccessToken c4State [c4TokenRespEmpty]).result = Except.ok () ∧
    getRefreshTokenField ((c4TokenRespEmpty.jsonBody).getD .jother) = some "" ∧
    (refreshAccessToken c4State [c4TokenRespEmpty]).state.refreshToken = some "old-refresh" ∧
    (some "old-refresh" : Option String) ≠ some "" := by
  decide

/-- The body of a successful rotating token response. -/
def c4GoodBody : BodyVal :=
  .jobj { Message := none, error_description := none,
          access_token := some "new-access", refresh_token := some "new-refresh" }

/-- A successful rotating token response. -/
def c4GoodResp : Resp :=
  { status := 200, statusText := "OK", jsonBody := some c4GoodBody, textBody := none }

/-- A rejected token exchange. -/
def c4BadResp : Resp :=
  { status := 400, statusText := "Bad Request", jsonBody := none, textBody := some "invalid_grant" }

/-- Concrete instance of the amended C4: a rotating success replaces both
tokens; a rejected exchange leaves both unchanged. -/
theorem refreshAccessToken_updates_tokens_witness :
    isTruthy c4State.refreshToken = true ∧ c4GoodResp.ok = true ∧
    (refreshAccessToken c4State [c4GoodResp]).result = Except.ok () ∧
    (refreshAccessToken c4State [c4GoodResp]).state.accessToken = getAccessToken c4GoodBody ∧
    (refreshAccessToken c4State [c4GoodResp]).state.refreshToken = getRefreshTokenField c4GoodBody ∧
    c4BadResp.ok = false ∧
    (refreshAccessToken c4State [c4BadResp]).state.accessToken = c4State.accessToken ∧
    (refreshAccessToken c4State [c4BadResp]).state.refreshToken = c4State.refreshToken :=
  ⟨by decide, by decide,
   (refreshAccessToken_updates_tokens.1 c4State c4GoodResp [] c4GoodBody
     (by decide) (by decide) (by decide) (by decide) rfl).1,
   (refreshAccessToken_updates_tokens.1 c4State c4GoodResp [] c4GoodBody
     (by decide) (by decide) (by decide) (by decide) rfl).2.1,
   (refreshAccessToken_updates_tokens.1 c4State c4GoodResp [] c4GoodBody
     (by decide) (by decide) (by decide) (by decide) rfl).2.2.1 (by decide),
   by decide,
   (refreshAccessToken_updates_tokens.2.1 c4State c4BadResp [] (by decide)).2.1,
   (refreshAccessToken_updates_tokens.2.1 c4State c4BadResp [] (by decide)).2.2⟩

/-! ## Claim C9 -/

theorem strIncludes_of_parts (s n x y : String) (h : s.data = x.data ++ (n.data ++ y.data)) :
    strIncludes s n = true :=
  strIncludes_of_data s n x.data y.data h

/-- Claim C9: for every non-success response, the thrown ApiError carries
the raw status, statusText and the JSON-then-text-then-null parsed body;
its message contains the status code and status text even when both body
parses fail; and the message is extended with the body's Message field,
else its error_description field, else the body itself when it is a
string shorter than 200 characters. -/
theorem handleApiError_shape (response : Resp) (context : String)
    (hok : response.ok = false) :
    (handleApiError response context).status = response.status ∧
    (handleApiError response context).statusText = response.statusText ∧
    (handleApiError response context).body = parseErrorBody response ∧
    strIncludes (handleApiError response context).message (toString response.status) = true ∧
    strIncludes (handleApiError response context).message response.statusText = true ∧
    (∀ m, truthyStr (getMessage (parseErrorBody response)) = some m →
      strIncludes (handleApiError response context).message m = true) ∧
    (∀ d, truthyStr (getMessage (parseErrorBody response)) = none →
      truthyStr (getErrorDescription (parseErrorBody response)) = some d →
      strIncludes (handleApiError response context).message d = true) ∧
    (∀ s, truthyStr (getMessage (parseErrorBody response)) = none →
      truthyStr (getErrorDescription (parseErrorBody response)) = none →
      parseErrorBody response = some (.jstr s) → s.length < 200 →
      strIncludes (handleApiError response context).message s = true) := by
  refine ⟨rfl, rfl, rfl, ?_, ?_, ?_, ?_, ?_⟩
  · exact strIncludes_of_parts _ _ ("Concur API error (" ++ context ++ "): ")
      (" " ++ response.statusText ++ apiErrorSuffix (parseErrorBody response))
      (by simp [handleApiError, strData_append, List.append_assoc])
  · exact strIncludes_of_parts _ _
      ("Concur API error (" ++ context ++ "): " ++ toString response.status ++ " ")
      (apiErrorSuffix (parseErrorBody response))
      (by simp [handleApiError, strData_append, List.append_assoc])
  · intro m hm
    refine strIncludes_of_parts _ _
      ("Concur API error (" ++ context ++ "): " ++ toString response.status ++ " " ++
        response.statusText ++ " - ") "" ?_
    simp [handleApiError, apiErrorSuffix, hm, strData_append, List.append_assoc]
  · intro d hm hd
    refine strIncludes_of_parts _ _
      ("Concur API error (" ++ context ++ "): " ++ toString response.status ++ " " ++
        response.statusText ++ " - ") "" ?_
    simp [handleApiError, apiErrorSuffix, hm, hd, strData_append, List.append_assoc]
  · intro s hm hd hbody hlen
    refine strIncludes_of_parts _ _
      ("Concur API error (" ++ context ++ "): " ++ toString response.status ++ " " ++
        response.statusText ++ " - ") "" ?_
    simp [handleApiError, apiErrorSuffix, hm, hd, hbody, hlen, getMessage,
          getErrorDescription, truthyStr, strData_append, List.append_assoc]

/-- A non-JSON, non-text 502 response (both body reads throw). -/
def c9Resp : Resp :=
  { status := 502, statusText := "Bad Gateway", jsonBody := none, textBody := none }

/-- Concrete instance of C9: even when both body parses fail, the message
still contains the status code and status text. -/
theorem handleApiError_shape_witness :
    c9Resp.ok = false ∧
    (handleApiError c9Resp "getReports").status = c9Resp.status ∧
    (handleApiError c9Resp "getReports").body = none ∧
    strIncludes (handleApiError c9Resp "getReports").message (toString c9Resp.status) = true ∧
    strIncludes (handleApiError c9Resp "getReports").message c9Resp.statusText = true :=
  ⟨by decide,
   (handleApiError_shape c9Resp "getReports" (by decide)).1,
   (handleApiError_shape c9Resp "getReports" (by decide)).2.2.1,
   (handleApiError_shape c9Resp "getReports" (by decide)).2.2.2.1,
   (handleApiError_shape c9Resp "getReports" (by decide)).2.2.2.2.1⟩

/-! ## fetchWithRetry lemmas -/

theorem getHeaders_with_token (st : SvcState) (script : List Resp)
    (h : isTruthy st.accessToken = true) :
    getHeaders st script =
      ⟨.ok [("Authorization", bearerValue st.accessToken), ("Accept", "application/json")],
       st, [], script⟩ := by
  simp [getHeaders, ensureToken, RunResult.andThen, h]

theorem lookup_mergeHeaders_auth (bv : String) (ov : List (String × String))
    (h : List.lookup "Authorization" ov = none) :
    List.lookup "Authorization"
      (mergeHeaders [("Authorization", bv), ("Accept", "application/json")] ov) = some bv := by
  simp [mergeHeaders, List.lookup, h]

/-! ## Claim C7 -/

/-- Claim C7: a 401 received while tokenRefreshInProgress is true is not
retried and triggers no refresh: the original 401 is propagated as the
thrown ApiError, with exactly one network call issued and the state left
unchanged. -/
theorem fetchWithRetry_refresh_in_progress (url : String) (options : RequestOptions)
    (context : String) (retryOn401 : Bool) (st : SvcState) (r : Resp) (rest : List Resp)
    (htok : isTruthy st.accessToken = true)
    (hprog : st.tokenRefreshInProgress = true)
    (hstatus : r.status = 401) :
    (fetchWithRetry url options context retryOn401 st (r :: rest)).result =
      Except.error (.api (handleApiError r context)) ∧
    (handleApiError r context).status = 401 ∧
    (fetchWithRetry url options context retryOn401 st (r :: rest)).trace.length = 1 ∧
    (fetchWithRetry url options context retryOn401 st (r :: rest)).state = st ∧
    (fetchWithRetry url options context retryOn401 st (r :: rest)).script = rest := by
  have hok : r.ok = false := by simp [Resp.ok, hstatus]
  refine ⟨?_, ?_, ?_, ?_, ?_⟩ <;>
    simp [fetchWithRetry, getHeaders_with_token _ _ htok, RunResult.andThen, netFetch,
          hprog, hstatus, hok, handleApiError]

/-- In-progress-flag fixture for the C7 witness. -/
def c7State : SvcState :=
  { accessToken := some "tok", refreshToken := some "refresh", clientId := some "cid",
    clientSecret := some "cs", tokenRefreshInProgress := true }

/-- A 401 response fixture. -/
def r401 : Resp :=
  { status := 401, statusText := "Unauthorized", jsonBody := some .jother, textBody := none }

/-- Concrete instance of C7. -/
theorem fetchWithRetry_refresh_in_progress_witness :
    isTruthy c7State.accessToken = true ∧
    c7State.tokenRefreshInProgress = true ∧
    r401.status = 401 ∧
    ((fetchWithRetry "https://api/x" ⟨"GET", [], none⟩ "getReports" true c7State [r401]).result =
      Except.error (.api (handleApiError r401 "getReports")) ∧
     (handleApiError r401 "getReports").status = 401 ∧
     (fetchWithRetry "https://api/x" ⟨"GET", [], none⟩ "getReports" true c7State [r401]).trace.length = 1 ∧
     (fetchWithRetry "https://api/x" ⟨"GET", [], none⟩ "getReports" true c7State [r401]).state = c7State ∧
     (fetchWithRetry "https://api/x" ⟨"GET", [], none⟩ "getReports" true c7State [r401]).script = []) :=
  ⟨by decide, by decide, by decide,
   fetchWithRetry_refresh_in_progress "https://api/x" ⟨"GET", [], none⟩ "getReports" true
     c7State r401 [] (by decide) (by decide) (by decide)⟩

/-! ## Claim C8 -/

/-- Claim C8: a 401 received when the refresh credentials are not all
configured is propagated as an error whose message contains "401", with
exactly one network call issued (no token refresh, no retry). -/
theorem fetchWithRetry_401_no_creds (url : String) (options : RequestOptions)
    (context : String) (retryOn401 : Bool) (st : SvcState) (r : Resp) (rest : List Resp)
    (htok : isTruthy st.accessToken = true)
    (hcred : (isTruthy st.refreshToken && isTruthy st.clientId && isTruthy st.clientSecret) = false)
    (hstatus : r.status = 401) :
    (fetchWithRetry url options context retryOn401 st (r :: rest)).result =
      Except.error (.api (handleApiError r context)) ∧
    strIncludes (handleApiError r context).message "401" = true ∧
    (fetchWithRetry url options context retryOn401 st (r :: rest)).trace.length = 1 ∧
    (fetchWithRetry url options context retryOn401 st (r :: rest)).script = rest := by
  have hok : r.ok = false := by simp [Resp.ok, hstatus]
  refine ⟨?_, ?_, ?_, ?_⟩
  · cases hretry : retryOn401 <;> cases hprog : st.tokenRefreshInProgress <;>
      simp [fetchWithRetry, getHeaders_with_token _ _ htok, RunResult.andThen, netFetch,
            hstatus, hok, hcred, hprog]
  · refine strIncludes_of_parts _ _ ("Concur API error (" ++ context ++ "): ")
      (" " ++ r.statusText ++ apiErrorSuffix (parseErrorBody r)) ?_
    simp [handleApiError, hstatus, strData_append, List.append_assoc,
          show toString (401 : Nat) = "401" from rfl]
  · cases hretry : retryOn401 <;> cases hprog : st.tokenRefreshInProgress <;>
      simp [fetchWithRetry, getHeaders_with_token _ _ htok, RunResult.andThen, netFetch,
            hstatus, hok, hcred, hprog]
  · cases hretry : retryOn401 <;> cases hprog : st.tokenRefreshInProgress <;>
      simp [fetchWithRetry, getHeaders_with_token _ _ htok, RunResult.andThen, netFetch,
            hstatus, hok, hcred, hprog]

/-- Credential-free fixture for the C8 witness: only an access token. -/
def c8State : SvcState :=
  { accessToken := some "tok", refreshToken := none, clientId := none,
    clientSecret := none, tokenRefreshInProgress := false }

/-- Concrete instance of C8. -/
theorem fetchWithRetry_401_no_creds_witness :
    isTruthy c8State.accessToken = true ∧
    (isTruthy c8State.refreshToken && isTruthy c8State.clientId &&
      isTruthy c8State.clientSecret) = false ∧
    r401.status = 401 ∧
    ((fetchWithRetry "https://api/x" ⟨"GET", [], none⟩ "getReports" true c8State [r401]).result =
      Except.error (.api (handleApiError r401 "getReports")) ∧
     strIncludes (handleApiError r401 "getReports").message "401" = true ∧
     (fetchWithRetry "https://api/x" ⟨"GET", [], none⟩ "getReports" true c8State [r401]).trace.length = 1 ∧
     (fetchWithRetry "https://api/x" ⟨"GET", [], none⟩ "getReports" true c8State [r401]).script = []) :=
  ⟨by decide, by decide, by decide,
   fetchWithRetry_401_no_creds "https://api/x" ⟨"GET", [], none⟩ "getReports" true
     c8State r401 [] (by decide) (by decide) (by decide)⟩

/-! ## Claim C6 -/

/-- Claim C6 (amended): the HTTP call is issued with an
`Authorization: Bearer <current access token>` header merged with the
caller-supplied headers, but the object spread puts the caller's headers
last, so caller-supplied keys override the defaults: the sent
Authorization value is the token manager's exactly when the caller does
not supply an Authorization header of its own. -/
theorem fetchWithRetry_auth_header (url : String) (options : RequestOptions)
    (context : String) (retryOn401 : Bool) (st : SvcState) (r : Resp) (rest : List Resp)
    (htok : isTruthy st.accessToken = true)
    (hnoauth : List.lookup "Authorization" options.headers = none) :
    (fetchWithRetry url options context retryOn401 st (r :: rest)).trace.head?.map
        (fun c => (c.url, c.method, c.body, List.lookup "Authorization" c.headers)) =
      some (url, options.method, options.body, some (bearerValue st.accessToken)) := by
  rw [fetchWithRetry, getHeaders_with_token _ _ htok]
  simp only [RunResult.andThen, netFetch]
  simp [lookup_mergeHeaders_auth _ _ hnoauth]

/-- Fixture for C6: a service with an access token only. -/
def c6State : SvcState :=
  { accessToken := some "tok", refreshToken := none, clientId := none,
    clientSecret := none, tokenRefreshInProgress := false }

/-- A successful response fixture. -/
def c6OkResp : Resp :=
  { status := 200, statusText := "OK", jsonBody := some .jother, textBody := none }

/-- Caller options that supply their own Authorization header. -/
def c6EvilOptions : RequestOptions :=
  { method := "GET", headers := [("Authorization", "Bearer attacker")], body := none }

/-- Counterexample to C6 as stated: when the caller supplies an
Authorization header, the spread `{ ...headers, ...options.headers }`
lets it override the token manager's value, so the sent Authorization is
the caller's, not the Bearer token. -/
theorem fetchWithRetry_auth_override_cex :
    (fetchWithRetry "https://api/x" c6EvilOptions "ctx" true c6State [c6OkResp]).trace.head?.map
        (fun c => List.lookup "Authorization" c.headers) =
      some (some "Bearer attacker") ∧
    bearerValue c6State.accessToken = "Bearer tok" ∧
    ("Bearer attacker" : String) ≠ "Bearer tok" := by
  refine ⟨?_, by decide, by decide⟩
  rw [fetchWithRetry, getHeaders_with_token c6State _ (by decide)]
  simp only [RunResult.andThen, netFetch]
  simp [mergeHeaders, List.lookup, c6EvilOptions, c6State, bearerValue]

/-- Caller options without an Authorization header. -/
def c6SafeOptions : RequestOptions :=
  { method := "GET", headers := [("Content-Type", "application/json")], body := none }

/-- Concrete instance of the amended C6: without a caller Authorization
header the sent Authorization is the token manager's Bearer token. -/
theorem fetchWithRetry_auth_header_witness :
    isTruthy c6State.accessToken = true ∧
    List.lookup "Authorization" c6SafeOptions.headers = none ∧
    (fetchWithRetry "https://api/x" c6SafeOptions "ctx" true c6State [c6OkResp]).trace.head?.map
        (fun c => (c.url, c.method, c.body, List.lookup "Authorization" c.headers)) =
      some ("https://api/x", c6SafeOptions.method, c6SafeOptions.body,
            some (bearerValue c6State.accessToken)) :=
  ⟨by decide, by decide,
   fetchWithRetry_auth_header "https://api/x" c6SafeOptions "ctx" true c6State c6OkResp []
     (by decide) (by decide)⟩

/-! ## Claim C3 -/

/-- Claim C3: when the first response is 401, the retry budget is intact
(retryOn401 = true), no refresh is in progress, refresh credentials are
all present, an access token was already held, and the token endpoint
accepts the refresh and returns a usable access token, fetchWithRetry
performs exactly one token refresh followed by exactly one retry of the
same url and options: exactly 3 network calls occur (original call,
token-endpoint call, retried call), the final result is the retry's
outcome, and no second retry happens. -/
theorem fetchWithRetry_refresh_retry_once (url : String) (options : RequestOptions)
    (context : String) (st : SvcState) (r1 tok r2 : Resp) (rest : List Resp) (b : BodyVal)
    (htok : isTruthy st.accessToken = true)
    (hrt : isTruthy st.refreshToken = true) (hci : isTruthy st.clientId = true)
    (hcs : isTruthy st.clientSecret = true)
    (hprog : st.tokenRefreshInProgress = false)
    (hstatus : r1.status = 401)
    (htokOk : tok.ok = true) (htokBody : tok.jsonBody = some b)
    (hnewTok : isTruthy (getAccessToken b) = true) :
    (fetchWithRetry url options context true st (r1 :: tok :: r2 :: rest)).trace.length = 3 ∧
    (fetchWithRetry url options context true st (r1 :: tok :: r2 :: rest)).trace.map NetCall.url =
      [url, tokenUrl, url] ∧
    (fetchWithRetry url options context true st (r1 :: tok :: r2 :: rest)).trace.map NetCall.method =
      [options.method, "POST", options.method] ∧
    (fetchWithRetry url options context true st (r1 :: tok :: r2 :: rest)).trace.map NetCall.body =
      [options.body, none, options.body] ∧
    (fetchWithRetry url options context true st (r1 :: tok :: r2 :: rest)).script = rest ∧
    (fetchWithRetry url options context true st (r1 :: tok :: r2 :: rest)).result =
      (if r2.ok = true then Except.ok r2
       else Except.error (.api (handleApiError r2 context))) ∧
    (fetchWithRetry url options context true st (r1 :: tok :: r2 :: rest)).state.accessToken =
      getAccessToken b ∧
    (fetchWithRetry url options context true st (r1 :: tok :: r2 :: rest)).state.tokenRefreshInProgress =
      false := by
  refine ⟨?_, ?_, ?_, ?_, ?_, ?_, ?_, ?_⟩ <;>
  · cases hr2 : r2.ok <;>
      simp [fetchWithRetry, getHeaders, ensureToken, refreshAccessToken, RunResult.andThen,
            netFetch, htok, hrt, hci, hcs, hprog, hstatus, htokOk, htokBody, hnewTok, hr2]

/-- Fixture for C3: a client with an expired access token and full
refresh credentials. -/
def c3State : SvcState :=
  { accessToken := some "expired", refreshToken := some "refresh", clientId := some "cid",
    clientSecret := some "cs", tokenRefreshInProgress := false }

/-- The rotated token body returned by the token endpoint. -/
def c3TokBody : BodyVal :=
  .jobj { Message := none, error_description := none,
          access_token := some "fresh", refresh_token := some "refresh2" }

/-- The successful token-endpoint response. -/
def c3Tok : Resp :=
  { status := 200, statusText := "OK", jsonBody := some c3TokBody, textBody := none }

/-- The successful retried response. -/
def c3R2 : Resp :=
  { status := 200, statusText := "OK", jsonBody := some .jother, textBody := none }

/-- Concrete instance of C3: 401, then token refresh, then a successful
retry — exactly 3 calls and the retry's response as the result. -/
theorem fetchWithRetry_refresh_retry_once_witness :
    r401.status = 401 ∧ c3Tok.ok = true ∧ isTruthy (getAccessToken c3TokBody) = true ∧
    ((fetchWithRetry "https://api/x" ⟨"GET", [], none⟩ "getReports" true c3State
        (r401 :: c3Tok :: c3R2 :: [])).trace.length = 3 ∧
     (fetchWithRetry "https://api/x" ⟨"GET", [], none⟩ "getReports" true c3State
        (r401 :: c3Tok :: c3R2 :: [])).trace.map NetCall.url =
       ["https://api/x", tokenUrl, "https://api/x"] ∧
     (fetchWithRetry "https://api/x" ⟨"GET", [], none⟩ "getReports" true c3State
        (r401 :: c3Tok :: c3R2 :: [])).trace.map NetCall.method = ["GET", "POST", "GET"] ∧
     (fetchWithRetry "https://api/x" ⟨"GET", [], none⟩ "getReports" true c3State
        (r401 :: c3Tok :: c3R2 :: [])).trace.map NetCall.body = [none, none, none] ∧
     (fetchWithRetry "https://api/x" ⟨"GET", [], none⟩ "getReports" true c3State
        (r401 :: c3Tok :: c3R2 :: [])).script = [] ∧
     (fetchWithRetry "https://api/x" ⟨"GET", [], none⟩ "getReports" true c3State
        (r401 :: c3Tok :: c3R2 :: [])).result =
       (if c3R2.ok = true then Except.ok c3R2
        else Except.error (.api (handleApiError c3R2 "getReports"))) ∧
     (fetchWithRetry "https://api/x" ⟨"GET", [], none⟩ "getReports" true c3State
        (r401 :: c3Tok :: c3R2 :: [])).state.accessToken = getAccessToken c3TokBody ∧
     (fetchWithRetry "https://api/x" ⟨"GET", [], none⟩ "getReports" true c3State
        (r401 :: c3Tok :: c3R2 :: [])).state.tokenRefreshInProgress = false) :=
  ⟨by decide, by decide, by decide,
   fetchWithRetry_refresh_retry_once "https://api/x" ⟨"GET", [], none⟩ "getReports" c3State
     r401 c3Tok c3R2 [] c3TokBody (by decide) (by decide) (by decide) (by decide) (by decide)
     (by decide) (by decide) rfl (by decide)⟩
